import Mathlib

/-!
Shallow embedding of `src/components/LiquidityDepth/BrushableAreaChart.tsx`.

Numbers are modelled as `ℚ` (exact arithmetic standing in for JS numbers);
the one JS-specific numeric feature the component inspects, `NaN` in a brush
selection, is modelled explicitly by the `JNum` type.  JS reference identity
(the `previousDomain === brushDomain` guard) is modelled by tagging each prop
value with an allocation id (`RefPair`); lodash `isEqual` compares values and
ignores the id.  React state flow is modelled as explicit state passing: the
synchronisation effect (source lines 134-139) is the function
`syncLocalSelection`, the render-pass guard and scale construction (lines
142-146, 181) are `renderPass`, the brush callback (lines 149-170) is
`brushed`, the zoom callback (lines 172-178) is `zoomed`, the render pass's
programmatic `brush.move` dispatch with its reference-identity guard
(lines 271-279) is `renderCycle`, and the enter-only data join of the
handle glyphs (lines 281-293) is `renderHandles`.
-/

/-- One entry of the `series` prop (`ChartEntry` from `./hooks`): the fields
the chart reads are `price0` (via `xAccessor`, line 70) and
`activeLiquidity` (via `yAccessor`, line 71). -/
structure ChartEntry where
  price0 : ℚ
  activeLiquidity : ℚ
deriving DecidableEq

/-- `xAccessor` (line 70): `(d) => d.price0`. -/
def xAccessor (d : ChartEntry) : ℚ := d.price0

/-- `yAccessor` (line 71): `(d) => d.activeLiquidity`. -/
def yAccessor (d : ChartEntry) : ℚ := d.activeLiquidity

/-- The margins prop (lines 13-18). -/
structure Margins where
  top : ℚ
  right : ℚ
  bottom : ℚ
  left : ℚ
deriving DecidableEq

/-- A d3 `scaleLinear` with a two-point domain `[d0, d1]` and a two-point
range `[r0, r1]`; d3 represents it by exactly these four numbers. -/
structure LinearScale where
  d0 : ℚ
  d1 : ℚ
  r0 : ℚ
  r1 : ℚ
deriving DecidableEq

/-- Forward application of a d3 linear scale:
`x ↦ r0 + (x - d0) / (d1 - d0) * (r1 - r0)`. -/
def LinearScale.applyQ (s : LinearScale) (x : ℚ) : ℚ :=
  s.r0 + (x - s.d0) * (s.r1 - s.r0) / (s.d1 - s.d0)

/-- `scale.invert`: `y ↦ d0 + (y - r0) / (r1 - r0) * (d1 - d0)`. -/
def LinearScale.invert (s : LinearScale) (y : ℚ) : ℚ :=
  s.d0 + (y - s.r0) * (s.d1 - s.d0) / (s.r1 - s.r0)

/-- d3 `min(series, accessor)`: the least value of the accessor over the
list.  d3 returns `undefined` on an empty list; `getScales` is only reached
with a non-empty `series` (guard on line 143), so the empty case is given a
dummy value. -/
def d3min : List ℚ → ℚ
  | [] => 0
  | x :: xs => xs.foldl min x

/-- d3 `max(series, accessor)`, same conventions as `d3min`. -/
def d3max : List ℚ → ℚ
  | [] => 0
  | x :: xs => xs.foldl max x

/-- The pair of scales produced by `getScales`. -/
structure Scales where
  xScale : LinearScale
  yScale : LinearScale
deriving DecidableEq

/-- `getScales` (lines 73-82):
`xScale`: domain `[min price0, max price0]`, range `[margin.left, width - margin.right]`;
`yScale`: domain `[0, max activeLiquidity]`, range `[height - margin.bottom, margin.top]`. -/
def getScales (series : List ChartEntry) (width height : ℚ) (margin : Margins) : Scales :=
  { xScale :=
      { d0 := d3min (series.map xAccessor)
        d1 := d3max (series.map xAccessor)
        r0 := margin.left
        r1 := width - margin.right }
    yScale :=
      { d0 := 0
        d1 := d3max (series.map yAccessor)
        r0 := height - margin.bottom
        r1 := margin.top } }

/-- A JS number as inspected by `Number.isNaN`: either `NaN` or an actual
rational value. -/
inductive JNum where
  | nan
  | val (q : ℚ)
deriving DecidableEq

/-- `Number.isNaN` (line 151). -/
def JNum.isNaN : JNum → Bool
  | .nan => true
  | .val _ => false

/-- The rational value of a non-NaN `JNum`; only consulted after the NaN
check of line 151 has passed. -/
def JNum.toQ : JNum → ℚ
  | .nan => 0
  | .val q => q

/-- The `type` of a d3 brush event: `'start'`, `'brush'` or `'end'`. -/
inductive BrushEventType where
  | start
  | brush
  | «end»
deriving DecidableEq

/-- A d3 brush event as destructured by `brushed` (line 149): the event
`type` and the pixel `selection`, which is `null` or a pair of numbers. -/
structure BrushEvent where
  type : BrushEventType
  selection : Option (JNum × JNum)
deriving DecidableEq

/-- What `brushed` does to the two handle glyphs: either
`attr('display', 'none')` (line 152) or `attr('display', null)` together
with one `translate(px) scale(sgn, 1)` transform per handle
(lines 161-169; the first datum is `{type:'w'}` with sign `-1`, the second
`{type:'e'}` with sign `1`). -/
inductive HandleDisplay where
  | hidden
  | shown (wTransform eTransform : ℚ × ℤ)
deriving DecidableEq

/-- The observable effect of one `brushed` invocation: what happens to the
handle glyphs and whether `onBrushDomainChange` is invoked (and with which
domain pair). -/
structure BrushedResult where
  display : HandleDisplay
  emit : Option (ℚ × ℚ)
deriving DecidableEq

/-- `brushed` (lines 149-170).  A `null` selection or one with a NaN bound
hides the handles and returns without emitting; otherwise, when the event
type is `'end'`, `onBrushDomainChange(selection.map(xScale.invert))` is
invoked, and the handles are shown translated to the selection's pixel
bounds. -/
def brushed (xScale : LinearScale) (ev : BrushEvent) : BrushedResult :=
  match ev.selection with
  | none => { display := .hidden, emit := none }
  | some (s0, s1) =>
    if s0.isNaN || s1.isNaN then { display := .hidden, emit := none }
    else
      { display := .shown (s0.toQ, -1) (s1.toQ, 1)
        emit :=
          if ev.type = .«end» then some (xScale.invert s0.toQ, xScale.invert s1.toQ)
          else none }

/-- The `onBrushDomainChange` invocations produced over a sequence of brush
events handled by `brushed`, in dispatch order. -/
def gestureEmissions (xScale : LinearScale) (evs : List BrushEvent) : List (ℚ × ℚ) :=
  evs.filterMap (fun ev => (brushed xScale ev).emit)

/-- A `[number, number]` JS array together with its allocation identity:
`rid` models the object reference (compared by `===`), `val` the stored
pair of numbers (compared by lodash `isEqual`). -/
structure RefPair where
  rid : ℕ
  val : ℚ × ℚ
deriving DecidableEq

/-- lodash `isEqual` on `[number, number] | undefined` (line 135): deep
value equality, blind to object identity. -/
def isEqualDomain : Option RefPair → Option RefPair → Bool
  | none, none => true
  | some a, some b => decide (a.val = b.val)
  | _, _ => false

/-- JS `===` on `[number, number] | undefined` values: reference identity
(`undefined === undefined` is true; two arrays are identical exactly when
they are the same allocation). -/
def refIdentical : Option RefPair → Option RefPair → Bool
  | none, none => true
  | some a, some b => decide (a.rid = b.rid)
  | _, _ => false

/-- The synchronisation effect (lines 134-139): new value of
`localSelection` after the effect runs with props `brushDomain` and state
`localSelection` — `if (brushDomain && !isEqual(brushDomain, localSelection))
setLocalSelection(brushDomain)`. -/
def syncLocalSelection (brushDomain localSelection : Option RefPair) : Option RefPair :=
  match brushDomain with
  | none => localSelection
  | some _ =>
    if isEqualDomain brushDomain localSelection then localSelection else brushDomain

/-- The component state relevant to the `brush.move` guard of lines 271-279:
the `localSelection` state visible to a render, and the `brushDomain` prop
of the previous render (`usePrevious(brushDomain)`, line 128). -/
structure RenderState where
  localSelection : Option RefPair
  prevDomain : Option RefPair
deriving DecidableEq

/-- One render cycle's effect on `RenderState`: the synchronisation effect
(lines 134-139) folds the current `brushDomain` prop into `localSelection`
(its result is the `localSelection` visible to the next render), and
`usePrevious` records the current `brushDomain`.  The only other writer of
`localSelection`, line 177 in `zoomed`, never executes a successful write
(see `zoomed`). -/
def renderStep (s : RenderState) (brushDomain : Option RefPair) : RenderState :=
  { localSelection := syncLocalSelection brushDomain s.localSelection
    prevDomain := brushDomain }

/-- The component state after mounting (`useState(undefined)`, line 132;
`usePrevious` starts at `undefined`) and processing a sequence of renders
with the given `brushDomain` prop values. -/
def renderTrace (inputs : List (Option RefPair)) : RenderState :=
  inputs.foldl renderStep { localSelection := none, prevDomain := none }

/-- The guard of line 272: `brushDomain && previousDomain === brushDomain`. -/
def moveGuard (previousDomain brushDomain : Option RefPair) : Bool :=
  brushDomain.isSome && refIdentical previousDomain brushDomain

/-- The three events d3-brush dispatches for the programmatic
`brush.move(selection, [p0, p1])` call of line 278 (on a non-transition
selection, d3-brush runs `emit.beforestart().start()`, `emit.brush()` and
`emit.end()`), each carrying the new pixel selection; all three reach the
`brushed` listener registered for `'start brush end'` on line 269. -/
def brushMoveEvents (p0 p1 : ℚ) : List BrushEvent :=
  [⟨BrushEventType.start, some (JNum.val p0, JNum.val p1)⟩,
   ⟨BrushEventType.brush, some (JNum.val p0, JNum.val p1)⟩,
   ⟨BrushEventType.«end», some (JNum.val p0, JNum.val p1)⟩]

/-- One full render cycle of the component at prop `brushDomain`, from the
state the render sees.  The render effect's brush block (lines 271-279):
when `brushDomain && previousDomain === brushDomain` passes,
`brush.move(…, localSelection.map(xScale))` re-dispatches start/brush/end
events through `brushed`, producing this cycle's `onBrushDomainChange`
invocations; otherwise nothing is dispatched.  The synchronisation effect
(lines 134-139) and the `usePrevious` recording produce the state the next
render sees (`renderStep`).  All effects of one commit close over this
render's state snapshot, so the dispatch reads the pre-sync
`localSelection`. -/
def renderCycle (xScale : LinearScale) (s : RenderState) (brushDomain : Option RefPair) :
    RenderState × List (ℚ × ℚ) :=
  let emits :=
    if moveGuard s.prevDomain brushDomain then
      match s.localSelection with
      | none => []
      | some l =>
        gestureEmissions xScale (brushMoveEvents (xScale.applyQ l.val.1) (xScale.applyQ l.val.2))
    else []
  (renderStep s brushDomain, emits)

/-- A d3 zoom transform: scale factor `k` and horizontal translation `x`
(the chart never reads `y`). -/
structure ZoomTransform where
  k : ℚ
  x : ℚ
deriving DecidableEq

/-- `transform.invertX` from d3-zoom: `px ↦ (px - x) / k`. -/
def ZoomTransform.invertX (t : ZoomTransform) (px : ℚ) : ℚ := (px - t.x) / t.k

/-- Lines 183-187: `currentZoomState.rescaleX(xScale)` followed by
`xScale.domain(newXscale.domain())` — the scale keeps its range and takes
the domain obtained by pulling the range back through the transform and the
old scale. -/
def applyZoom (t : ZoomTransform) (s : LinearScale) : LinearScale :=
  { s with
    d0 := s.invert (t.invertX s.r0)
    d1 := s.invert (t.invertX s.r1) }

/-- A JS runtime error surfacing from an event handler. -/
inductive JsRuntimeError where
  | referenceError (ident : String)
deriving DecidableEq

/-- The component state read and written by `zoomed`. -/
structure ZoomedState where
  currentZoomState : Option ZoomTransform
  localSelection : Option RefPair
deriving DecidableEq

/-- `zoomed` (lines 172-178).  It first runs `setCurrentZoomState(transform)`;
then evaluates `localSelection && setLocalSelection(currentSelection.map(xScale.invert))`.
The identifier `currentSelection` is not defined anywhere in the source file
(a `@ts-ignore` on line 176 suppresses the compile error), so whenever
`localSelection` is truthy the right-hand side throws a `ReferenceError`;
the zoom-state update has already been applied when the throw happens.
Returns the state after the handler together with the error, if any. -/
def zoomed (s : ZoomedState) (transform : ZoomTransform) :
    ZoomedState × Option JsRuntimeError :=
  let s1 : ZoomedState := { s with currentZoomState := some transform }
  match s1.localSelection with
  | none => (s1, none)
  | some _ => (s1, some (.referenceError "currentSelection"))

/-- The inputs consulted by the render effect before anything is drawn:
the two DOM refs, the series, the dimensions and the margins
(lines 142-146). -/
structure RenderEnv where
  wrapperPresent : Bool
  svgPresent : Bool
  series : List ChartEntry
  width : ℚ
  height : ℚ
  margins : Margins
deriving DecidableEq

/-- The guard and scale construction of the render effect (lines 142-146 and
181): `if (!wrapperRef.current || !svgRef.current || series.length === 0)
return` — when the guard fires, the pass returns before any scale is built
or anything is drawn and no error is raised; otherwise the scales are built
from the series, dimensions and margins and drawing proceeds. -/
def renderPass (env : RenderEnv) : Option Scales :=
  if !env.wrapperPresent || !env.svgPresent || env.series.length == 0 then none
  else some (getScales env.series env.width env.height env.margins)

/-- The datum type bound to a handle glyph: `{type: 'w'}` or `{type: 'e'}`. -/
inductive HandleType where
  | w
  | e
deriving DecidableEq

/-- The data array of line 284: `[{ type: 'w' }, { type: 'e' }]`. -/
def handleData : List HandleType := [HandleType.w, HandleType.e]

/-- A d3 data join by index followed by `.enter().append(...)`
(lines 281-293): data items at indices with no existing element form the
enter selection and are appended; existing elements are kept untouched. -/
def dataJoinEnterAppend (existing dat : List HandleType) : List HandleType :=
  existing ++ dat.drop existing.length

/-- The handle glyphs present in `#brush` after one render pass, given the
glyphs already present: `selectAll('.v-brush-handle').data([w, e]).enter()
.append('path').classed('v-brush-handle', true)...` (lines 281-293). -/
def renderHandles (existing : List HandleType) : List HandleType :=
  dataJoinEnterAppend existing handleData

/-- The handle glyphs present after `n` render passes starting from an empty
`#brush` group. -/
def iterateRender : ℕ → List HandleType
  | 0 => []
  | n + 1 => renderHandles (iterateRender n)

/-- The concrete scenario of the spec: series with price domain `[0, 1000]`. -/
def demoSeries : List ChartEntry := [⟨0, 1⟩, ⟨1000, 2⟩]

/-- The concrete margins of the spec scenario. -/
def demoMargins : Margins := ⟨0, 0, 20, 0⟩

/-- The horizontal scale of the spec scenario: domain `[0, 1000]`,
range `[0, 500]`. -/
def demoXScale : LinearScale := (getScales demoSeries 500 300 demoMargins).xScale

/-! ### Helper lemmas -/

/-- Emissions only happen on `'end'` events: for any other event type,
`brushed` never invokes `onBrushDomainChange` (lines 156-158). -/
theorem brushedEmit_of_ne_end (sc : LinearScale) (ev : BrushEvent)
    (h : ev.type ≠ BrushEventType.«end») : (brushed sc ev).emit = none := by
  obtain ⟨t, sel⟩ := ev
  cases sel with
  | none => rfl
  | some p =>
    obtain ⟨a, b⟩ := p
    by_cases hn : (a.isNaN || b.isNaN) = true
    · simp [brushed, hn]
    · simp [brushed, hn, h]

/-- A left fold with `min` never exceeds its initial accumulator. -/
theorem foldlMin_le (xs : List ℚ) (x : ℚ) : xs.foldl min x ≤ x := by
  induction xs generalizing x with
  | nil => exact le_refl x
  | cons a as ih => exact le_trans (ih (min x a)) (min_le_left x a)

/-- A left fold with `max` is at least its initial accumulator. -/
theorem le_foldlMax (xs : List ℚ) (x : ℚ) : x ≤ xs.foldl max x := by
  induction xs generalizing x with
  | nil => exact le_refl x
  | cons a as ih => exact le_trans (le_max_left x a) (ih (max x a))

/-- On a non-empty list, `d3min` is at most `d3max`. -/
theorem d3min_le_d3max (l : List ℚ) (h : l ≠ []) : d3min l ≤ d3max l := by
  cases l with
  | nil => exact absurd rfl h
  | cons x xs => exact le_trans (foldlMin_le xs x) (le_foldlMax xs x)

/-- `scale.invert` is monotone when the scale's domain and range are both
ascending (the range possibly collapsed). -/
theorem invert_mono (s : LinearScale) (hd : s.d0 ≤ s.d1) (hr : s.r0 ≤ s.r1)
    (p1 p2 : ℚ) (hp : p1 ≤ p2) : s.invert p1 ≤ s.invert p2 := by
  unfold LinearScale.invert
  rcases eq_or_lt_of_le hr with h0 | h0
  · have hz : s.r1 - s.r0 = 0 := by rw [← h0]; ring
    rw [hz, div_zero, div_zero]
  · have hdd : (0 : ℚ) ≤ s.d1 - s.d0 := sub_nonneg.mpr hd
    have h1 : (p1 - s.r0) * (s.d1 - s.d0) ≤ (p2 - s.r0) * (s.d1 - s.d0) :=
      mul_le_mul_of_nonneg_right (by linarith) hdd
    have h2 := (div_le_div_iff_of_pos_right (by linarith : (0 : ℚ) < s.r1 - s.r0)).mpr h1
    linarith

/-- One render cycle establishes the guard invariant: whenever the recorded
previous `brushDomain` is defined, so is `localSelection` (the
synchronisation effect of that same render wrote it if needed). -/
theorem renderStep_inv (s : RenderState) (bd : Option RefPair) :
    (renderStep s bd).prevDomain.isSome = true →
    (renderStep s bd).localSelection.isSome = true := by
  cases bd with
  | none => intro h; exact absurd h (by simp [renderStep])
  | some b =>
    intro _
    show (syncLocalSelection (some b) s.localSelection).isSome = true
    unfold syncLocalSelection
    cases hls : s.localSelection with
    | none => simp [isEqualDomain]
    | some l => by_cases h : isEqualDomain (some b) (some l) = true <;> simp [h]

/-- The guard invariant holds along every render trace. -/
theorem renderTrace_inv (inputs : List (Option RefPair)) (s0 : RenderState)
    (h0 : s0.prevDomain.isSome = true → s0.localSelection.isSome = true) :
    (inputs.foldl renderStep s0).prevDomain.isSome = true →
    (inputs.foldl renderStep s0).localSelection.isSome = true := by
  induction inputs generalizing s0 with
  | nil => exact h0
  | cons bd rest ih => exact ih (renderStep s0 bd) (renderStep_inv s0 bd)

/-- Round-trip: on a non-degenerate linear scale, `invert` undoes forward
application exactly. -/
theorem invert_applyQ (s : LinearScale) (hd : s.d0 ≠ s.d1) (hr : s.r0 ≠ s.r1)
    (x : ℚ) : s.invert (s.applyQ x) = x := by
  unfold LinearScale.invert LinearScale.applyQ
  have hd' : s.d1 - s.d0 ≠ 0 := sub_ne_zero.mpr (Ne.symm hd)
  have hr' : s.r1 - s.r0 ≠ 0 := sub_ne_zero.mpr (Ne.symm hr)
  field_simp
  ring

/-- Rescaling through a zoom transform divides the domain length by `k`, so
for a nonzero factor the rescaled scale stays non-degenerate. -/
theorem applyZoom_domain_ne (t : ZoomTransform) (s : LinearScale) (hk : t.k ≠ 0)
    (hd : s.d0 ≠ s.d1) (hr : s.r0 ≠ s.r1) :
    (applyZoom t s).d0 ≠ (applyZoom t s).d1 := by
  have hd' : s.d1 - s.d0 ≠ 0 := sub_ne_zero.mpr (Ne.symm hd)
  have hr' : s.r1 - s.r0 ≠ 0 := sub_ne_zero.mpr (Ne.symm hr)
  have hsub : (applyZoom t s).d1 - (applyZoom t s).d0 = (s.d1 - s.d0) / t.k := by
    simp only [applyZoom, ZoomTransform.invertX, LinearScale.invert]
    field_simp
    ring
  have hne : (applyZoom t s).d1 - (applyZoom t s).d0 ≠ 0 := by
    rw [hsub]; exact div_ne_zero hd' hk
  exact fun h => hne (by rw [h]; ring)

/-- The three events of a `brush.move` dispatch produce exactly one
`onBrushDomainChange` invocation, on the `'end'` event, carrying the moved
pixel selection inverted through the scale. -/
theorem gestureEmissions_brushMove (sc : LinearScale) (p0 p1 : ℚ) :
    gestureEmissions sc (brushMoveEvents p0 p1) = [(sc.invert p0, sc.invert p1)] := rfl

/-! ### Claims -/

/-- Claim C1: over a completed drag gesture — a `'start'` event, any number
of intermediate `'brush'` events, and a final `'end'` event with a valid
(non-null, non-NaN) pixel selection — `onBrushDomainChange` is invoked
exactly once; the prefix before the end event emits nothing, and the single
payload is the final pixel selection inverted through the horizontal scale
active at completion time. -/
theorem c1_single_emission_per_gesture (sc : LinearScale)
    (startSel : Option (JNum × JNum)) (moves : List BrushEvent) (s0 s1 : ℚ)
    (hmoves : ∀ m ∈ moves, m.type = BrushEventType.brush) :
    gestureEmissions sc (⟨BrushEventType.start, startSel⟩ :: moves) = [] ∧
    gestureEmissions sc
      (⟨BrushEventType.start, startSel⟩ :: moves ++
        [⟨BrushEventType.«end», some (JNum.val s0, JNum.val s1)⟩]) =
      [(sc.invert s0, sc.invert s1)] := by
  have hstart : (brushed sc ⟨BrushEventType.start, startSel⟩).emit = none :=
    brushedEmit_of_ne_end sc _ (by simp)
  have hmv : List.filterMap (fun ev => (brushed sc ev).emit) moves = [] :=
    List.filterMap_eq_nil_iff.mpr fun m hm =>
      brushedEmit_of_ne_end sc m (by rw [hmoves m hm]; simp)
  have hend : (brushed sc
      ⟨BrushEventType.«end», some (JNum.val s0, JNum.val s1)⟩).emit =
      some (sc.invert s0, sc.invert s1) := rfl
  constructor
  · simp [gestureEmissions, List.filterMap_cons, hstart, hmv]
  · simp [gestureEmissions, List.filterMap_cons, List.filterMap_append, hstart, hmv, hend]

/-- Witness for C1 at a concrete gesture over the demo scale. -/
theorem c1_witness :
    gestureEmissions demoXScale
      [⟨BrushEventType.start, some (JNum.val 100, JNum.val 100)⟩,
       ⟨BrushEventType.brush, some (JNum.val 100, JNum.val 250)⟩] = [] ∧
    gestureEmissions demoXScale
      [⟨BrushEventType.start, some (JNum.val 100, JNum.val 100)⟩,
       ⟨BrushEventType.brush, some (JNum.val 100, JNum.val 250)⟩,
       ⟨BrushEventType.«end», some (JNum.val 100, JNum.val 300)⟩] =
      [(demoXScale.invert 100, demoXScale.invert 300)] :=
  c1_single_emission_per_gesture demoXScale (some (JNum.val 100, JNum.val 100))
    [⟨BrushEventType.brush, some (JNum.val 100, JNum.val 250)⟩] 100 300 (by decide)

/-- Claim C2 counterexample: the gesture's end event emits `[200, 600]`
while `localSelection` still holds the pre-gesture value `[100, 400]`
(`brushed` contains no `setLocalSelection` call).  When the parent feeds
`[200, 600]` back in as `brushDomain` (a fresh array, allocation id 5), the
next render's synchronisation effect overwrites `localSelection` —
LocalSelection does change — and the render triggered by that state write,
its prop reference now unchanged so `previousDomain === brushDomain` passes,
re-invokes `onBrushDomainChange` with `[200, 600]` through the `brush.move`
dispatch of line 278 — a second invocation does occur. -/
theorem c2_counterexample :
    (brushed demoXScale ⟨BrushEventType.«end», some (JNum.val 100, JNum.val 300)⟩).emit =
      some (200, 600) ∧
    (renderCycle demoXScale ⟨some ⟨0, (100, 400)⟩, some ⟨0, (100, 400)⟩⟩
      (some ⟨5, (200, 600)⟩)).1.localSelection ≠ some ⟨0, (100, 400)⟩ ∧
    (renderCycle demoXScale
        (renderCycle demoXScale ⟨some ⟨0, (100, 400)⟩, some ⟨0, (100, 400)⟩⟩
          (some ⟨5, (200, 600)⟩)).1
        (some ⟨5, (200, 600)⟩)).2 = [(200, 600)] := by
  refine ⟨?_, ?_, ?_⟩
  · norm_num [brushed, JNum.isNaN, JNum.toQ, demoXScale, getScales, demoSeries, demoMargins,
      d3min, d3max, xAccessor, LinearScale.invert]
  · norm_num [renderCycle, renderStep, syncLocalSelection, isEqualDomain]
  · norm_num [renderCycle, renderStep, moveGuard, refIdentical, syncLocalSelection,
      isEqualDomain, gestureEmissions, brushMoveEvents, brushed, JNum.isNaN, JNum.toQ,
      List.filterMap, demoXScale, getScales, demoSeries, demoMargins, d3min, d3max,
      xAccessor, LinearScale.applyQ, LinearScale.invert]
    rfl

/-- Claim C2 amended: when the parent feeds the emitted value `[a, b]` back
in as `brushDomain` under a fresh reference, the first render after the
feedback dispatches nothing (`previousDomain === brushDomain` still fails),
but its synchronisation effect makes `localSelection` hold the value
`[a, b]`, overwriting it whenever it differed; the render triggered by that
write, its prop reference now unchanged, leaves the state exactly as it is
(value-equal feedback never rewrites `localSelection`) yet does re-invoke
`onBrushDomainChange` once more via the `brush.move` dispatch of line 278,
with payload `[a, b]` — the moved pixel selection round-tripped through a
non-degenerate horizontal scale. -/
theorem c2_feedback_overwrite_echo (xScale : LinearScale) (s0 : RenderState) (ab : RefPair)
    (hfresh : refIdentical s0.prevDomain (some ab) = false)
    (hd : xScale.d0 ≠ xScale.d1) (hr : xScale.r0 ≠ xScale.r1) :
    (renderCycle xScale s0 (some ab)).2 = [] ∧
    ∃ r, (renderCycle xScale s0 (some ab)).1.localSelection = some r ∧ r.val = ab.val ∧
      (renderCycle xScale (renderCycle xScale s0 (some ab)).1 (some ab)).1 =
        (renderCycle xScale s0 (some ab)).1 ∧
      (renderCycle xScale (renderCycle xScale s0 (some ab)).1 (some ab)).2 =
        [(ab.val.1, ab.val.2)] := by
  have hfirst : (renderCycle xScale s0 (some ab)).2 = [] := by
    simp [renderCycle, moveGuard, hfresh]
  refine ⟨hfirst, ?_⟩
  obtain ⟨r, hr1, hrval⟩ :
      ∃ r, syncLocalSelection (some ab) s0.localSelection = some r ∧ r.val = ab.val := by
    cases hls : s0.localSelection with
    | none => exact ⟨ab, by simp [syncLocalSelection, isEqualDomain], rfl⟩
    | some l =>
      by_cases h : ab.val = l.val
      · exact ⟨l, by simp [syncLocalSelection, isEqualDomain, h], h.symm⟩
      · exact ⟨ab, by simp [syncLocalSelection, isEqualDomain, h], rfl⟩
  have hstate1 : (renderCycle xScale s0 (some ab)).1 = ⟨some r, some ab⟩ := by
    show renderStep s0 (some ab) = _
    rw [renderStep, hr1]
  have hsync2 : syncLocalSelection (some ab) (some r) = some r := by
    simp [syncLocalSelection, isEqualDomain, hrval]
  refine ⟨r, by rw [hstate1], hrval, ?_, ?_⟩
  · rw [hstate1]
    show renderStep ⟨some r, some ab⟩ (some ab) = (⟨some r, some ab⟩ : RenderState)
    rw [renderStep, hsync2]
  · rw [hstate1]
    have hguard : moveGuard (some ab) (some ab) = true := by
      simp [moveGuard, refIdentical]
    show (renderCycle xScale ⟨some r, some ab⟩ (some ab)).2 = _
    simp [renderCycle, hguard, gestureEmissions_brushMove, invert_applyQ xScale hd hr, hrval]

/-- Witness for the amended C2: fresh feedback of `[200, 600]` (allocation
id 1) into the freshly mounted state, over the demo scale. -/
theorem c2_witness :
    (renderCycle demoXScale ⟨none, none⟩ (some ⟨1, (200, 600)⟩)).2 = [] ∧
    ∃ r, (renderCycle demoXScale ⟨none, none⟩ (some ⟨1, (200, 600)⟩)).1.localSelection =
        some r ∧ r.val = (⟨1, (200, 600)⟩ : RefPair).val ∧
      (renderCycle demoXScale
          (renderCycle demoXScale ⟨none, none⟩ (some ⟨1, (200, 600)⟩)).1
          (some ⟨1, (200, 600)⟩)).1 =
        (renderCycle demoXScale ⟨none, none⟩ (some ⟨1, (200, 600)⟩)).1 ∧
      (renderCycle demoXScale
          (renderCycle demoXScale ⟨none, none⟩ (some ⟨1, (200, 600)⟩)).1
          (some ⟨1, (200, 600)⟩)).2 =
        [((⟨1, (200, 600)⟩ : RefPair).val.1, (⟨1, (200, 600)⟩ : RefPair).val.2)] :=
  c2_feedback_overwrite_echo demoXScale ⟨none, none⟩ ⟨1, (200, 600)⟩ rfl
    (by norm_num [demoXScale, getScales, demoSeries, demoMargins, d3min, d3max, xAccessor])
    (by norm_num [demoXScale, getScales, demoSeries, demoMargins, d3min, d3max, xAccessor])

/-- Claim C3: the synchronisation effect compares the external `brushDomain`
against `localSelection` by value — a value-equal pair is kept (even under a
different object identity), a value-different pair overwrites, an undefined
`brushDomain` changes nothing; consequently toggling `brushDomain` from
`[200, 600]` to `undefined` and back to a fresh `[200, 600]` array leaves
LocalSelection holding `[200, 600]`. -/
theorem c3_value_comparison_sync :
    (∀ b l : RefPair, syncLocalSelection (some b) (some l) =
      if l.val = b.val then some l else some b) ∧
    (∀ ls : Option RefPair, syncLocalSelection none ls = ls) ∧
    syncLocalSelection (some ⟨2, (200, 600)⟩)
      (syncLocalSelection none (syncLocalSelection (some ⟨1, (200, 600)⟩) none)) =
      some ⟨1, (200, 600)⟩ := by
  refine ⟨?_, fun ls => rfl, ?_⟩
  · intro b l
    by_cases h : l.val = b.val
    · simp [syncLocalSelection, isEqualDomain, h]
    · have h' : ¬b.val = l.val := fun e => h e.symm
      simp [syncLocalSelection, isEqualDomain, h, h']
  · simp [syncLocalSelection, isEqualDomain]

/-- Claim C4: zoom re-projection.  After a zoom transform is applied, the
render pass rebuilds the horizontal scale and rescales its domain through
the transform (lines 183-187, `applyZoom`); the brush block then positions
the handles at `localSelection.map(xScale)` (line 278) and `brushed` places
the glyphs at exactly those pixels — so inverting the handles' new pixel
positions through the rescaled scale recovers the original domain selection
exactly, for any nonzero zoom factor and non-degenerate base scale.  (The
`ReferenceError` thrown by line 177 — see `zoomed` — fires only after
`setCurrentZoomState` has committed, so it prevents neither the re-render
nor this repositioning.) -/
theorem c4_zoom_reprojection (t : ZoomTransform) (s : LinearScale) (lo hi : ℚ)
    (hk : t.k ≠ 0) (hd : s.d0 ≠ s.d1) (hr : s.r0 ≠ s.r1) :
    (brushed (applyZoom t s)
        ⟨BrushEventType.brush,
          some (JNum.val ((applyZoom t s).applyQ lo),
            JNum.val ((applyZoom t s).applyQ hi))⟩).display =
      HandleDisplay.shown ((applyZoom t s).applyQ lo, -1) ((applyZoom t s).applyQ hi, 1) ∧
    (applyZoom t s).invert ((applyZoom t s).applyQ lo) = lo ∧
    (applyZoom t s).invert ((applyZoom t s).applyQ hi) = hi := by
  have hd' := applyZoom_domain_ne t s hk hd hr
  have hr' : (applyZoom t s).r0 ≠ (applyZoom t s).r1 := hr
  exact ⟨rfl, invert_applyQ _ hd' hr' lo, invert_applyQ _ hd' hr' hi⟩

/-- Witness for C4: `LocalSelection = [100, 200]` under a zoom transform
doubling the scale factor (`k = 2`), over the demo scale. -/
theorem c4_witness :
    (brushed (applyZoom ⟨2, 0⟩ demoXScale)
        ⟨BrushEventType.brush,
          some (JNum.val ((applyZoom ⟨2, 0⟩ demoXScale).applyQ 100),
            JNum.val ((applyZoom ⟨2, 0⟩ demoXScale).applyQ 200))⟩).display =
      HandleDisplay.shown ((applyZoom ⟨2, 0⟩ demoXScale).applyQ 100, -1)
        ((applyZoom ⟨2, 0⟩ demoXScale).applyQ 200, 1) ∧
    (applyZoom ⟨2, 0⟩ demoXScale).invert ((applyZoom ⟨2, 0⟩ demoXScale).applyQ 100) = 100 ∧
    (applyZoom ⟨2, 0⟩ demoXScale).invert ((applyZoom ⟨2, 0⟩ demoXScale).applyQ 200) = 200 :=
  c4_zoom_reprojection ⟨2, 0⟩ demoXScale 100 200 (by norm_num)
    (by norm_num [demoXScale, getScales, demoSeries, demoMargins, d3min, d3max, xAccessor])
    (by norm_num [demoXScale, getScales, demoSeries, demoMargins, d3min, d3max, xAccessor])

/-- Claim C5: in the spec scenario (price domain `[0, 1000]`, width 500,
height 300, margins `{top: 0, right: 0, bottom: 20, left: 0}`, no zoom),
`xScale` maps 0 to pixel 0 and 1000 to pixel 500, and a drag from pixel 100
to pixel 300 followed by release emits `onBrushDomainChange([200, 600])`
exactly once. -/
theorem c5_scenario :
    (getScales demoSeries 500 300 demoMargins).xScale.applyQ 0 = 0 ∧
    (getScales demoSeries 500 300 demoMargins).xScale.applyQ 1000 = 500 ∧
    gestureEmissions (getScales demoSeries 500 300 demoMargins).xScale
      [⟨BrushEventType.start, some (JNum.val 100, JNum.val 100)⟩,
       ⟨BrushEventType.brush, some (JNum.val 100, JNum.val 200)⟩,
       ⟨BrushEventType.«end», some (JNum.val 100, JNum.val 300)⟩] = [(200, 600)] := by
  refine ⟨?_, ?_, ?_⟩ <;>
    norm_num [gestureEmissions, brushed, JNum.isNaN, JNum.toQ, List.filterMap, getScales,
      demoSeries, demoMargins, d3min, d3max, xAccessor, LinearScale.applyQ, LinearScale.invert]
  rfl

/-- Claim C6 counterexample: a collapsed selection `[100, 100]` (no NaN,
`low == high`) on an `'end'` event is not suppressed by `brushed` — the
handles are shown and `onBrushDomainChange` is invoked. -/
theorem c6_counterexample :
    (brushed demoXScale ⟨BrushEventType.«end», some (JNum.val 100, JNum.val 100)⟩).emit ≠
      none ∧
    (brushed demoXScale ⟨BrushEventType.«end», some (JNum.val 100, JNum.val 100)⟩).display ≠
      HandleDisplay.hidden := by
  constructor <;> simp [brushed, JNum.isNaN]

/-- Claim C6 amended: for every brush event whose selection is `null` or has
a NaN bound — including when that event is the gesture-end event — the
handles are rendered with `display: none` and `onBrushDomainChange` is not
invoked; a collapsed but numeric selection (`low == high`, no NaN) is not
suppressed. -/
theorem c6_nan_suppression (sc : LinearScale) (ev : BrushEvent)
    (h : ev.selection = none ∨
      ∃ a b, ev.selection = some (a, b) ∧ (a.isNaN || b.isNaN) = true) :
    (brushed sc ev).display = HandleDisplay.hidden ∧ (brushed sc ev).emit = none := by
  rcases h with h | ⟨a, b, h, hn⟩
  · simp [brushed, h]
  · simp [brushed, h, hn]

/-- Witness for the amended C6 at a concrete NaN end event. -/
theorem c6_witness :
    (brushed demoXScale
      ⟨BrushEventType.«end», some (JNum.nan, JNum.val 5)⟩).display = HandleDisplay.hidden ∧
    (brushed demoXScale ⟨BrushEventType.«end», some (JNum.nan, JNum.val 5)⟩).emit = none :=
  c6_nan_suppression demoXScale ⟨BrushEventType.«end», some (JNum.nan, JNum.val 5)⟩
    (Or.inr ⟨JNum.nan, JNum.val 5, rfl, rfl⟩)

/-- Claim C7 counterexample: with a non-empty series and zero-size
dimensions (width 0, height 0) the render pass is not skipped — the guard on
line 143 checks only the refs and `series.length`, so the scales are built
and drawing proceeds. -/
theorem c7_counterexample :
    renderPass
      { wrapperPresent := true, svgPresent := true, series := [⟨1, 1⟩],
        width := 0, height := 0, margins := ⟨0, 0, 0, 0⟩ } ≠ none := by
  decide

/-- Claim C7 amended: the render pass is skipped — no scales built, nothing
drawn, no error raised — exactly when a DOM ref is missing or the series is
empty; zero-size dimensions are not checked, so with both refs present and a
non-empty series the pass always proceeds to build scales. -/
theorem c7_skip_on_empty_series (env : RenderEnv) :
    (env.series = [] → renderPass env = none) ∧
    (env.wrapperPresent = true → env.svgPresent = true → env.series ≠ [] →
      (renderPass env).isSome = true) := by
  constructor
  · intro h
    simp [renderPass, h]
  · intro hw hs hne
    have hl : ¬env.series.length = 0 := by simpa using hne
    simp [renderPass, hw, hs, hl]

/-- Witness for the amended C7: an empty series skips the pass. -/
theorem c7_witness :
    renderPass
      { wrapperPresent := true, svgPresent := true, series := [],
        width := 5, height := 5, margins := ⟨0, 0, 0, 0⟩ } = none :=
  (c7_skip_on_empty_series _).1 rfl

/-- Claim C8: for a non-empty series, margins with
`margins.left ≤ width - margins.right`, and a non-degenerate pixel selection
`[p1, p2]` with `p1 ≤ p2`, the domain pair emitted on gesture end — each
bound inverted through the horizontal scale built by `getScales` — satisfies
`low ≤ high`. -/
theorem c8_emitted_domain_ordered (series : List ChartEntry) (width height : ℚ)
    (m : Margins) (p1 p2 : ℚ) (hne : series ≠ []) (hm : m.left ≤ width - m.right)
    (hp : p1 ≤ p2) :
    ∃ lo hi,
      (brushed (getScales series width height m).xScale
        ⟨BrushEventType.«end», some (JNum.val p1, JNum.val p2)⟩).emit = some (lo, hi) ∧
      lo ≤ hi := by
  refine ⟨(getScales series width height m).xScale.invert p1,
    (getScales series width height m).xScale.invert p2, rfl, ?_⟩
  exact invert_mono _ (d3min_le_d3max _ (by simpa using hne)) hm p1 p2 hp

/-- Witness for C8 on the demo scenario: the end selection `[100, 300]`
yields an ordered domain pair. -/
theorem c8_witness :
    ∃ lo hi,
      (brushed (getScales demoSeries 500 300 demoMargins).xScale
        ⟨BrushEventType.«end», some (JNum.val 100, JNum.val 300)⟩).emit = some (lo, hi) ∧
      lo ≤ hi :=
  c8_emitted_domain_ordered demoSeries 500 300 demoMargins 100 300 (by decide)
    (by norm_num [demoMargins]) (by norm_num)

/-- Claim C9: whenever the guard of line 272 (`brushDomain` defined and
reference-identical to the previous render's `brushDomain`) passes on any
render of a trace, the `localSelection` visible to that render is defined,
so `localSelection.map(xScale)` on line 278 never dereferences `undefined`. -/
theorem c9_guarded_branch_safe (inputs : List (Option RefPair)) (bd : Option RefPair)
    (h : moveGuard (renderTrace inputs).prevDomain bd = true) :
    ((renderTrace inputs).localSelection).isSome = true := by
  rw [moveGuard, Bool.and_eq_true] at h
  obtain ⟨hbd, hid⟩ := h
  have hprev : (renderTrace inputs).prevDomain.isSome = true := by
    cases hpd : (renderTrace inputs).prevDomain with
    | some _ => rfl
    | none =>
      cases hb : bd with
      | none => rw [hb] at hbd; exact absurd hbd (by simp)
      | some b => rw [hpd, hb] at hid; exact absurd hid (by simp [refIdentical])
  exact renderTrace_inv inputs _ (by simp) hprev

/-- Witness for C9: one prior render with `brushDomain = [200, 600]`
(allocation id 1), then the guard passes for the identical reference. -/
theorem c9_witness :
    ((renderTrace [some ⟨1, (200, 600)⟩]).localSelection).isSome = true :=
  c9_guarded_branch_safe [some ⟨1, (200, 600)⟩] (some ⟨1, (200, 600)⟩) (by decide)

/-- Claim C10: after any positive number of render passes starting from an
empty `#brush` group, exactly the two handle glyphs exist, the west one
first and the east one second — the enter-only data join appends both on the
first pass and appends nothing afterwards. -/
theorem c10_enter_only_join (n : ℕ) (h : 0 < n) :
    iterateRender n = [HandleType.w, HandleType.e] := by
  induction n with
  | zero => exact absurd h (lt_irrefl 0)
  | succ k ih =>
    cases k with
    | zero => rfl
    | succ j =>
      show renderHandles (iterateRender (j + 1)) = _
      rw [ih (Nat.succ_pos j)]
      rfl

/-- Witness for C10 after three passes. -/
theorem c10_witness : iterateRender 3 = [HandleType.w, HandleType.e] :=
  c10_enter_only_join 3 (by decide)
